import Mathlib

/-!
Verification of the media-gallery frontend (rm-video-mgmt-app-v2).

The definitions below are a shallow embedding of the TypeScript sources:
* `src/frontend/src/components/UploadModal.tsx` — `handleSubmit`,
  `handleCancelUpload`, the form-data construction and the error handling
  of the upload attempt;
* `src/frontend/src/contexts/AuthContext.tsx` — `logout`;
* the backend ingestion/delivery pipeline (not present in the sources,
  modelled from the specification where a claim requires it).
-/

namespace VideoMgmt

/-- JavaScript `String.prototype.trim` on the underlying character list:
drop whitespace characters from the front. -/
def trimL (l : List Char) : List Char := l.dropWhile Char.isWhitespace

/-- Drop whitespace characters from the back. -/
def trimR (l : List Char) : List Char := (l.reverse.dropWhile Char.isWhitespace).reverse

/-- Trim both ends of a character list. -/
def jsTrimList (l : List Char) : List Char := trimR (trimL l)

/-- Embedding of JavaScript `s.trim()`. -/
def jsTrim (s : String) : String := ⟨jsTrimList s.data⟩

/-- Embedding of JavaScript `s.startsWith(pre)` on the character lists. -/
def jsStartsWith (s pre : String) : Bool := pre.data.isPrefixOf s.data

/-- A selected browser `File`: name, declared MIME type, byte size and content. -/
structure JsFile where
  name : String
  type : String
  size : Nat
  bytes : List Nat
  deriving DecidableEq, Repr

/-- The `sourceKind` union type of `UploadModal.tsx` (line 19). -/
inductive SourceKind
  | VIDEOTAPE
  | ICLOUD
  | GOOGLE_PHOTOS
  | USER_UPLOAD
  deriving DecidableEq, Repr

/-- The wire string of a source kind, as stored in the `sourceKind` state. -/
def sourceKindStr : SourceKind → String
  | .VIDEOTAPE => "VIDEOTAPE"
  | .ICLOUD => "ICLOUD"
  | .GOOGLE_PHOTOS => "GOOGLE_PHOTOS"
  | .USER_UPLOAD => "USER_UPLOAD"

/-- Replace the first occurrence of a character in a character list. -/
def replaceFirstChar : List Char → Char → Char → List Char
  | [], _, _ => []
  | c :: t, a, b => if c = a then b :: t else c :: replaceFirstChar t a b

/-- Embedding of JavaScript `s.replace(a, b)` for a one-character pattern:
only the first occurrence is replaced. -/
def jsReplaceOne (s : String) (a b : Char) : String := ⟨replaceFirstChar s.data a b⟩

/-- The display name used in the error message of line 68: the first
underscore of the kind string becomes a space. -/
def sourceKindLabel (k : SourceKind) : String := jsReplaceOne (sourceKindStr k) '_' ' '

/-- The component state read by `handleSubmit` (lines 14-19). -/
structure FormState where
  selectedFile : Option JsFile
  tapeNumber : String
  title : String
  description : String
  tags : String
  sourceKind : SourceKind
  deriving Repr

/-- One value appended to a `FormData`: either the file or a string field. -/
inductive FormValue
  | file (f : JsFile)
  | str (s : String)
  deriving DecidableEq, Repr

/-- The multipart form data: the append-ordered list of named entries. -/
abbrev FormData := List (String × FormValue)

/-- Lines 81-94 of `UploadModal.tsx`: the `formData.append` sequence.
`tape_number` is appended only when `tapeNumber.trim()` is truthy, with the
trimmed value; likewise `tags`. -/
def buildFormData (f : JsFile) (st : FormState) : FormData :=
  let base : FormData :=
    [("file", .file f),
     ("kind", .str (if jsStartsWith f.type "video/" then "VIDEO" else "PHOTO")),
     ("source_kind", .str (sourceKindStr st.sourceKind)),
     ("title", .str st.title),
     ("description", .str st.description)]
  let withTape : FormData :=
    if jsTrim st.tapeNumber ≠ "" then base ++ [("tape_number", .str (jsTrim st.tapeNumber))]
    else base
  if jsTrim st.tags ≠ "" then withTape ++ [("tags", .str (jsTrim st.tags))]
  else withTape

/-- Outcome of the synchronous validation part of `handleSubmit`: either an
early return with an error message set, or the upload request with its form
data. -/
inductive SubmitAction
  | reject (errorMsg : String)
  | upload (fd : FormData)
  deriving DecidableEq, Repr

/-- Lines 52-95 of `UploadModal.tsx`: the guard clauses of `handleSubmit`,
in source order, followed by the form-data construction. JavaScript
`!tapeNumber.trim()` holds exactly when the trimmed string is empty. -/
def handleSubmit (st : FormState) : SubmitAction :=
  match st.selectedFile with
  | none => .reject "Please select a file to upload"
  | some f =>
    if st.sourceKind = .VIDEOTAPE ∧ jsTrim st.tapeNumber = "" then
      .reject "Tape number is required for VideoTape uploads"
    else if st.sourceKind ≠ .VIDEOTAPE ∧ jsTrim st.tapeNumber ≠ "" then
      .reject (sourceKindLabel st.sourceKind ++ " sources cannot have a tape number")
    else
      .upload (buildFormData f st)

/-- First entry of the form data under a name, when it is a string field. -/
def getStr (fd : FormData) (k : String) : Option String :=
  match fd.find? (fun e => e.1 == k) with
  | some (_, .str s) => some s
  | _ => none

/-- Whether the form data contains an entry under the given name. -/
def hasField (fd : FormData) (k : String) : Bool :=
  fd.any (fun e => e.1 == k)

/-- Result of the awaited `mediaApi.uploadMedia` call: success, or a rejection
carrying the JavaScript error name, the optional HTTP status
(`err.response?.status`) and the optional detail (`err.response?.data?.detail`). -/
inductive UploadOutcome
  | success
  | failure (errName : String) (status : Option Nat) (detail : Option String)
  deriving DecidableEq, Repr

/-- Lines 114-121 of `UploadModal.tsx`: the error message chosen by the catch
block, given the error and the `cancelled` flag at catch time. -/
def catchMessage (errName : String) (status : Option Nat) (detail : Option String)
    (cancelled : Bool) : String :=
  if errName = "AbortError" ∨ cancelled = true then "Upload cancelled"
  else if status = some 409 then
    "Duplicate file detected: " ++ detail.getD "A file with the same content already exists"
  else detail.getD "Upload failed. Please try again."

/-- Observable effects of one `handleSubmit` run: whether `uploadMedia` was
called and with which form data, the final `error` state (the empty string
when no error was set), and whether `onUploadSuccess` and `onClose` ran. -/
structure SubmitEffects where
  uploadCalled : Bool
  formData : Option FormData
  errorMsg : String
  successCalled : Bool
  closeCalled : Bool
  deriving DecidableEq, Repr

/-- Lines 52-126 of `UploadModal.tsx`: the whole `handleSubmit` run. A guard
failure returns early with its message and no upload. Otherwise `uploadMedia`
runs with the built form data; `cancelledDuring` is the `cancelled` flag at
the time the await settles (set by `handleCancelUpload`, lines 43-50). On
success the callbacks run only when not cancelled (lines 102-113); on
rejection the catch block sets the error message (lines 114-121). -/
def runSubmit (st : FormState) (outcome : UploadOutcome) (cancelledDuring : Bool) :
    SubmitEffects :=
  match handleSubmit st with
  | .reject msg =>
    { uploadCalled := false, formData := none, errorMsg := msg,
      successCalled := false, closeCalled := false }
  | .upload fd =>
    match outcome with
    | .success =>
      if cancelledDuring then
        { uploadCalled := true, formData := some fd, errorMsg := "",
          successCalled := false, closeCalled := false }
      else
        { uploadCalled := true, formData := some fd, errorMsg := "",
          successCalled := true, closeCalled := true }
    | .failure errName status detail =>
      { uploadCalled := true, formData := some fd,
        errorMsg := catchMessage errName status detail cancelledDuring,
        successCalled := false, closeCalled := false }

/-- Browser `localStorage`: an association list of key/value pairs. -/
abbrev LocalStorage := List (String × String)

/-- JavaScript `localStorage.getItem`. -/
def getItem (ls : LocalStorage) (k : String) : Option String :=
  (ls.find? (fun e => e.1 == k)).map (fun e => e.2)

/-- JavaScript `localStorage.removeItem`. -/
def removeItem (ls : LocalStorage) (k : String) : LocalStorage :=
  ls.filter (fun e => !(e.1 == k))

/-- Client auth state: the local storage and the `user` React state. -/
structure AuthState (U : Type) where
  storage : LocalStorage
  user : Option U
  deriving Repr

/-- Lines 53-66 of `AuthContext.tsx`: `logout` reads the refresh token, calls
the backend logout inside a try/catch whose catch ignores the error, then
unconditionally removes both tokens and clears the user. `apiRejects` says
whether `authApi.logout` rejects when called. -/
def logout {U : Type} (st : AuthState U) (apiRejects : Bool) : AuthState U :=
  let apiResult : Except Unit Unit :=
    match getItem st.storage "refresh_token" with
    | some _ => if apiRejects then .error () else .ok ()
    | none => .ok ()
  match apiResult with
  | .ok () =>
    { storage := removeItem (removeItem st.storage "access_token") "refresh_token",
      user := none }
  | .error () =>
    { storage := removeItem (removeItem st.storage "access_token") "refresh_token",
      user := none }

/-! The backend ingestion/delivery pipeline. The repository sources contain
only the frontend; the backend that implements `ingest` and `deliver` is not
under `src/`, so it is modelled from the specification (sections 4.2-4.6). -/

/-- Media kind of an asset. -/
inductive MediaKind
  | PHOTO
  | VIDEO
  deriving DecidableEq, Repr

/-- Modelled from the spec: a typed ingestion rejection (section 7); the
backend implementation is missing from `src/`. -/
inductive IngestError
  | IOError
  | InvalidMediaType
  | MissingRequiredField
  | ForbiddenField
  | DuplicateContent (existingIdentity : Nat)
  | DuplicateKey
  | StorageFailure
  deriving DecidableEq, Repr

/-- Modelled from the spec: a typed delivery rejection (sections 4.6, 7). -/
inductive DeliverError
  | NotFound
  | NotReady
  | RangeNotSatisfiable
  deriving DecidableEq, Repr

/-- Modelled from the spec: the metadata and bytes of one ingestion request
(section 6, `ingest(metadata, sourceKind, byteStream)`). -/
structure IngestInput where
  bytes : List Nat
  kind : MediaKind
  sourceKind : SourceKind
  tapeNumber : Option String
  deriving DecidableEq, Repr

/-- Modelled from the spec: a committed `MediaAsset` row (section 3); the
content fingerprint is modelled as the byte list itself (a perfect,
collision-free content address). -/
structure Asset where
  identity : Nat
  bytes : List Nat
  kind : MediaKind
  sourceKind : SourceKind
  tapeNumber : Option String
  ready : Bool
  deleted : Bool
  deriving DecidableEq, Repr

/-- The committed asset store. -/
abbrev Store := List Asset

/-- Modelled from the spec: `SourcePolicy.validate`/`normalize` (section 4.2)
for one request, returning the normalized tape number on success. The backend
implementation is missing from `src/`. -/
def validatePolicy (maxBytes : Nat) (inp : IngestInput) :
    Except IngestError (Option String) :=
  if inp.bytes.length = 0 ∨ maxBytes < inp.bytes.length then .error .InvalidMediaType
  else
    match inp.sourceKind with
    | .VIDEOTAPE =>
      match inp.tapeNumber with
      | none => .error .MissingRequiredField
      | some t => if jsTrim t = "" then .error .MissingRequiredField
                  else .ok (some (jsTrim t))
    | _ =>
      match inp.tapeNumber with
      | none => .ok none
      | some t => if jsTrim t = "" then .ok none else .error .ForbiddenField

/-- Modelled from the spec: the `IngestionCoordinator` accept-or-reject
decision (section 4.5) over an in-memory store. Dedup is checked against
non-deleted assets by content; tape-number uniqueness against non-deleted
tape assets; on success the new READY asset is committed with a fresh
identity. The backend implementation is missing from `src/`. -/
def ingest (maxBytes : Nat) (store : Store) (inp : IngestInput) :
    Except IngestError (Nat × Store) :=
  match validatePolicy maxBytes inp with
  | .error e => .error e
  | .ok tape =>
    match store.find? (fun a => !a.deleted && a.bytes == inp.bytes) with
    | some a => .error (.DuplicateContent a.identity)
    | none =>
      if store.any (fun a => !a.deleted && a.sourceKind == .VIDEOTAPE
          && a.tapeNumber == tape && inp.sourceKind == .VIDEOTAPE) then
        .error .DuplicateKey
      else
        let ident := store.length + 1
        .ok (ident,
          ({ identity := ident, bytes := inp.bytes, kind := inp.kind,
             sourceKind := inp.sourceKind, tapeNumber := tape,
             ready := true, deleted := false } : Asset) :: store)

/-- Modelled from the spec: `DeliveryService.open` without a range (section
4.6): serve the stored bytes of a READY, non-deleted asset. The backend
implementation is missing from `src/`. -/
def deliver (store : Store) (ident : Nat) : Except DeliverError (List Nat) :=
  match store.find? (fun a => !a.deleted && a.identity == ident) with
  | none => .error .NotFound
  | some a => if a.ready then .ok a.bytes else .error .NotReady

/-- Concrete sample inputs used to instantiate the theorems. -/
def sampleVideoFile : JsFile :=
  { name := "vacation.mp4", type := "video/mp4", size := 1024, bytes := [1, 2, 3] }

/-- A sample photo file. -/
def samplePhotoFile : JsFile :=
  { name := "sunset.jpg", type := "image/jpeg", size := 512, bytes := [4, 5] }

/-- A videotape upload state with a padded tape number. -/
def tapeState : FormState :=
  { selectedFile := some sampleVideoFile, tapeNumber := " T001 ", title := "Vacation",
    description := "", tags := "", sourceKind := .VIDEOTAPE }

/-- An iCloud upload state with no tape number. -/
def icloudState : FormState :=
  { selectedFile := some samplePhotoFile, tapeNumber := "", title := "Sunset",
    description := "", tags := "family", sourceKind := .ICLOUD }

/-- A videotape upload state whose tape-number input is whitespace only. -/
def blankTapeState : FormState :=
  { selectedFile := some sampleVideoFile, tapeNumber := "   ", title := "Vacation",
    description := "", tags := "", sourceKind := .VIDEOTAPE }

/-- An iCloud upload state that supplies a tape number. -/
def icloudTapeState : FormState :=
  { selectedFile := some samplePhotoFile, tapeNumber := "T002", title := "Sunset",
    description := "", tags := "", sourceKind := .ICLOUD }

/-- A zero-length video file. -/
def zeroFile : JsFile :=
  { name := "empty.mp4", type := "video/mp4", size := 0, bytes := [] }

/-- A videotape upload state selecting the zero-length file. -/
def zeroState : FormState :=
  { selectedFile := some zeroFile, tapeNumber := "T001", title := "Empty",
    description := "", tags := "", sourceKind := .VIDEOTAPE }

/-- A sample ingestion request for the backend model. -/
def sampleIngest : IngestInput :=
  { bytes := [7, 7], kind := .VIDEO, sourceKind := .VIDEOTAPE, tapeNumber := some "T001" }

/-- The store produced by ingesting `sampleIngest` into the empty store. -/
def sampleStore : Store :=
  [{ identity := 1, bytes := [7, 7], kind := .VIDEO, sourceKind := .VIDEOTAPE,
     tapeNumber := some "T001", ready := true, deleted := false }]

/-! Helper lemmas. -/

theorem dropWhile_self_idem {α : Type} (p : α → Bool) (l : List α) :
    (l.dropWhile p).dropWhile p = l.dropWhile p := by
  cases h : l.dropWhile p with
  | nil => simp
  | cons c t =>
    have hp := List.head?_dropWhile_not p l
    rw [h] at hp
    simp only [List.head?_cons] at hp
    simp [List.dropWhile_cons, hp]

theorem head?_dropWhile_false {α : Type} (p : α → Bool) (l : List α) (c : α)
    (h : (l.dropWhile p).head? = some c) : p c = false := by
  have hp := List.head?_dropWhile_not p l
  rw [h] at hp
  exact hp

theorem jsTrimList_idem (l : List Char) : jsTrimList (jsTrimList l) = jsTrimList l := by
  unfold jsTrimList trimR trimL
  set p := Char.isWhitespace with hp
  set X := l.dropWhile p with hX
  set Y := X.reverse.dropWhile p with hY
  have step1 : Y.reverse.dropWhile p = Y.reverse := by
    cases hc : Y.reverse with
    | nil => simp
    | cons c cs =>
      obtain ⟨s, hs⟩ := List.dropWhile_suffix (l := X.reverse) p
      rw [← hY] at hs
      have hXc : X = c :: (cs ++ s.reverse) := by
        have := congrArg List.reverse hs
        simpa [hc] using this.symm
      have hhead : X.head? = some c := by rw [hXc]; rfl
      have hfalse : p c = false := head?_dropWhile_false p l c (hX ▸ hhead)
      rw [List.dropWhile_cons_of_neg (by simp [hfalse])]
  calc ((Y.reverse.dropWhile p).reverse.dropWhile p).reverse
      = (Y.reverse.reverse.dropWhile p).reverse := by rw [step1]
    _ = (Y.dropWhile p).reverse := by rw [List.reverse_reverse]
    _ = Y.reverse := by rw [hY, dropWhile_self_idem]

theorem jsTrim_idem (s : String) : jsTrim (jsTrim s) = jsTrim s :=
  congrArg String.mk (jsTrimList_idem s.data)

theorem handleSubmit_upload_inv (st : FormState) (fd : FormData)
    (h : handleSubmit st = .upload fd) :
    ∃ f, st.selectedFile = some f ∧ fd = buildFormData f st ∧
      ¬(st.sourceKind = .VIDEOTAPE ∧ jsTrim st.tapeNumber = "") ∧
      ¬(st.sourceKind ≠ .VIDEOTAPE ∧ jsTrim st.tapeNumber ≠ "") := by
  unfold handleSubmit at h
  cases hf : st.selectedFile with
  | none => rw [hf] at h; exact absurd h (by simp)
  | some f =>
    rw [hf] at h
    dsimp only at h
    refine ⟨f, rfl, ?_⟩
    by_cases h1 : st.sourceKind = .VIDEOTAPE ∧ jsTrim st.tapeNumber = ""
    · rw [if_pos h1] at h; exact absurd h (by simp)
    · rw [if_neg h1] at h
      by_cases h2 : st.sourceKind ≠ .VIDEOTAPE ∧ jsTrim st.tapeNumber ≠ ""
      · rw [if_pos h2] at h; exact absurd h (by simp)
      · rw [if_neg h2] at h
        exact ⟨(SubmitAction.upload.injEq _ _ ▸ h).symm, h1, h2⟩

theorem getStr_buildFormData_tape (f : JsFile) (st : FormState)
    (ht : jsTrim st.tapeNumber ≠ "") :
    getStr (buildFormData f st) "tape_number" = some (jsTrim st.tapeNumber) := by
  unfold buildFormData
  split_ifs with h1 h2 <;> simp_all [getStr, List.find?]

theorem hasField_buildFormData_tape_true (f : JsFile) (st : FormState)
    (ht : jsTrim st.tapeNumber ≠ "") :
    hasField (buildFormData f st) "tape_number" = true := by
  unfold buildFormData
  split_ifs with h1 h2 <;> simp_all [hasField]

theorem hasField_buildFormData_tape_false (f : JsFile) (st : FormState)
    (ht : jsTrim st.tapeNumber = "") :
    hasField (buildFormData f st) "tape_number" = false := by
  unfold buildFormData
  split_ifs with h1 h2 <;> simp_all [hasField]

theorem getStr_buildFormData_kind (f : JsFile) (st : FormState) :
    getStr (buildFormData f st) "kind" =
      some (if jsStartsWith f.type "video/" then "VIDEO" else "PHOTO") := by
  unfold buildFormData
  split_ifs with h1 h2 <;> simp_all [getStr, List.find?]

/-- C1: a submission built by `handleSubmit` carries a `tape_number` field
exactly when the source kind is VIDEOTAPE, and a VIDEOTAPE submission always
carries a non-empty tape number. -/
theorem C1_tape_field_iff_videotape (st : FormState) (fd : FormData)
    (h : handleSubmit st = .upload fd) :
    (hasField fd "tape_number" = true ↔ st.sourceKind = SourceKind.VIDEOTAPE) ∧
    (st.sourceKind = SourceKind.VIDEOTAPE →
      ∃ v, getStr fd "tape_number" = some v ∧ v ≠ "") := by
  obtain ⟨f, hf, rfl, h1, h2⟩ := handleSubmit_upload_inv st fd h
  by_cases hk : st.sourceKind = SourceKind.VIDEOTAPE
  · have ht : jsTrim st.tapeNumber ≠ "" := fun he => h1 ⟨hk, he⟩
    refine ⟨by simp [hasField_buildFormData_tape_true f st ht, hk], fun _ => ?_⟩
    exact ⟨jsTrim st.tapeNumber, getStr_buildFormData_tape f st ht, ht⟩
  · have ht : jsTrim st.tapeNumber = "" := by
      by_contra hne
      exact h2 ⟨hk, hne⟩
    exact ⟨by simp [hasField_buildFormData_tape_false f st ht, hk],
      fun hkk => absurd hkk hk⟩

/-- Witness for C1 at a concrete VIDEOTAPE submission. -/
theorem C1_witness :
    (hasField (buildFormData sampleVideoFile tapeState) "tape_number" = true ↔
      tapeState.sourceKind = SourceKind.VIDEOTAPE) ∧
    (tapeState.sourceKind = SourceKind.VIDEOTAPE →
      ∃ v, getStr (buildFormData sampleVideoFile tapeState) "tape_number" = some v ∧
        v ≠ "") :=
  C1_tape_field_iff_videotape tapeState (buildFormData sampleVideoFile tapeState)
    (by decide)

/-- C2: for every VIDEOTAPE upload whose tape-number input is empty or
whitespace-only (trims to empty), `handleSubmit` sets the missing-required-field
error message and returns early, and `uploadMedia` is never called for that
attempt. -/
theorem C2_videotape_blank_tape_rejected (st : FormState) (f : JsFile)
    (hf : st.selectedFile = some f) (hk : st.sourceKind = .VIDEOTAPE)
    (ht : jsTrim st.tapeNumber = "") :
    handleSubmit st = .reject "Tape number is required for VideoTape uploads" ∧
    ∀ outcome c, (runSubmit st outcome c).uploadCalled = false := by
  have h : handleSubmit st = .reject "Tape number is required for VideoTape uploads" := by
    unfold handleSubmit
    rw [hf]
    dsimp only
    rw [if_pos ⟨hk, ht⟩]
  exact ⟨h, fun o c => by simp [runSubmit, h]⟩

/-- Witness for C2 at the whitespace-only tape-number state. -/
theorem C2_witness :
    handleSubmit blankTapeState = .reject "Tape number is required for VideoTape uploads" ∧
    ∀ outcome c, (runSubmit blankTapeState outcome c).uploadCalled = false :=
  C2_videotape_blank_tape_rejected blankTapeState sampleVideoFile rfl rfl (by decide)

/-- C3: for every non-VIDEOTAPE upload, a tape-number input that is non-empty
after trimming is rejected with the forbidden-field message and `uploadMedia`
is never called; an empty or whitespace-only tape-number input lets the
submission proceed with no `tape_number` entry in the form data. -/
theorem C3_nontape_tape_number_rules (st : FormState) (f : JsFile)
    (hf : st.selectedFile = some f) (hk : st.sourceKind ≠ SourceKind.VIDEOTAPE) :
    (jsTrim st.tapeNumber ≠ "" →
      handleSubmit st =
        .reject (sourceKindLabel st.sourceKind ++ " sources cannot have a tape number") ∧
      ∀ outcome c, (runSubmit st outcome c).uploadCalled = false) ∧
    (jsTrim st.tapeNumber = "" →
      handleSubmit st = .upload (buildFormData f st) ∧
      hasField (buildFormData f st) "tape_number" = false) := by
  constructor
  · intro ht
    have h : handleSubmit st =
        .reject (sourceKindLabel st.sourceKind ++ " sources cannot have a tape number") := by
      unfold handleSubmit
      rw [hf]
      dsimp only
      rw [if_neg (fun hc => hk hc.1), if_pos ⟨hk, ht⟩]
    exact ⟨h, fun o c => by simp [runSubmit, h]⟩
  · intro ht
    have h : handleSubmit st = .upload (buildFormData f st) := by
      unfold handleSubmit
      rw [hf]
      dsimp only
      rw [if_neg (fun hc => hk hc.1), if_neg (fun hc => hc.2 ht)]
    exact ⟨h, hasField_buildFormData_tape_false f st ht⟩

/-- Witness for C3 at a concrete iCloud submission carrying a tape number. -/
theorem C3_witness :
    handleSubmit icloudTapeState = .reject "ICLOUD sources cannot have a tape number" ∧
    (runSubmit icloudTapeState .success false).uploadCalled = false ∧
    handleSubmit icloudState = .upload (buildFormData samplePhotoFile icloudState) ∧
    hasField (buildFormData samplePhotoFile icloudState) "tape_number" = false :=
  have h1 := C3_nontape_tape_number_rules icloudTapeState samplePhotoFile rfl (by decide)
  have h2 := C3_nontape_tape_number_rules icloudState samplePhotoFile rfl (by decide)
  ⟨(h1.1 (by decide)).1, (h1.1 (by decide)).2 .success false,
   (h2.2 (by decide)).1, (h2.2 (by decide)).2⟩

/-- C4 counterexample: the zero-length file passes every check of
`handleSubmit` and `uploadMedia` is called, refuting that zero-length files
are rejected before the upload starts. -/
theorem C4_counterexample :
    zeroFile.size = 0 ∧ zeroState.selectedFile = some zeroFile ∧
    (runSubmit zeroState .success false).uploadCalled = true := by
  decide

/-- C4 amended: `handleSubmit` performs no byte-length validation at all; any
selected file, whatever its size (zero-length or arbitrarily large), proceeds
to `uploadMedia` provided the tape-number rules pass. -/
theorem C4_no_size_validation (st : FormState) (f : JsFile)
    (hf : st.selectedFile = some f)
    (h1 : ¬(st.sourceKind = SourceKind.VIDEOTAPE ∧ jsTrim st.tapeNumber = ""))
    (h2 : ¬(st.sourceKind ≠ SourceKind.VIDEOTAPE ∧ jsTrim st.tapeNumber ≠ "")) :
    handleSubmit st = .upload (buildFormData f st) ∧
    ∀ outcome c, (runSubmit st outcome c).uploadCalled = true := by
  have h : handleSubmit st = .upload (buildFormData f st) := by
    unfold handleSubmit
    rw [hf]
    dsimp only
    rw [if_neg h1, if_neg h2]
  refine ⟨h, fun o c => ?_⟩
  cases o <;> cases c <;> simp [runSubmit, h]

/-- Witness for C4 at the zero-length file. -/
theorem C4_witness :
    handleSubmit zeroState = .upload (buildFormData zeroFile zeroState) ∧
    ∀ outcome c, (runSubmit zeroState outcome c).uploadCalled = true :=
  C4_no_size_validation zeroState zeroFile rfl (by decide) (by decide)

/-- C5: a VIDEOTAPE submission places in the form data exactly the trimmed
tape-number input, and the stored value has no surrounding whitespace (it is
a fixed point of trimming). -/
theorem C5_tape_number_trimmed (st : FormState) (fd : FormData)
    (hk : st.sourceKind = SourceKind.VIDEOTAPE)
    (h : handleSubmit st = .upload fd) :
    getStr fd "tape_number" = some (jsTrim st.tapeNumber) ∧
    jsTrim (jsTrim st.tapeNumber) = jsTrim st.tapeNumber := by
  obtain ⟨f, hf, rfl, h1, h2⟩ := handleSubmit_upload_inv st fd h
  have ht : jsTrim st.tapeNumber ≠ "" := fun he => h1 ⟨hk, he⟩
  exact ⟨getStr_buildFormData_tape f st ht, jsTrim_idem st.tapeNumber⟩

/-- Witness for C5 at a padded tape number. -/
theorem C5_witness :
    getStr (buildFormData sampleVideoFile tapeState) "tape_number" =
      some (jsTrim tapeState.tapeNumber) ∧
    jsTrim (jsTrim tapeState.tapeNumber) = jsTrim tapeState.tapeNumber :=
  C5_tape_number_trimmed tapeState (buildFormData sampleVideoFile tapeState)
    rfl (by decide)

/-- C6: the submitted `kind` field is `VIDEO` exactly when the declared MIME
type of the selected file starts with `video/`, and `PHOTO` otherwise, so it
is always one of the two. -/
theorem C6_kind_from_mime (st : FormState) (f : JsFile) (fd : FormData)
    (hf : st.selectedFile = some f) (h : handleSubmit st = .upload fd) :
    getStr fd "kind" =
      some (if jsStartsWith f.type "video/" then "VIDEO" else "PHOTO") ∧
    (getStr fd "kind" = some "VIDEO" ↔ jsStartsWith f.type "video/" = true) ∧
    (getStr fd "kind" = some "VIDEO" ∨ getStr fd "kind" = some "PHOTO") := by
  obtain ⟨f2, hf2, rfl, h1, h2⟩ := handleSubmit_upload_inv st fd h
  have hff : f2 = f := Option.some.inj (hf2.symm.trans hf)
  subst hff
  have hkind := getStr_buildFormData_kind f2 st
  cases hsw : jsStartsWith f2.type "video/" <;> simp_all

/-- Witness for C6 at a video MIME type. -/
theorem C6_witness :
    getStr (buildFormData sampleVideoFile tapeState) "kind" =
      some (if jsStartsWith sampleVideoFile.type "video/" then "VIDEO" else "PHOTO") ∧
    (getStr (buildFormData sampleVideoFile tapeState) "kind" = some "VIDEO" ↔
      jsStartsWith sampleVideoFile.type "video/" = true) ∧
    (getStr (buildFormData sampleVideoFile tapeState) "kind" = some "VIDEO" ∨
      getStr (buildFormData sampleVideoFile tapeState) "kind" = some "PHOTO") :=
  C6_kind_from_mime tapeState sampleVideoFile (buildFormData sampleVideoFile tapeState)
    rfl (by decide)

/-- C7: when the server rejects an upload with HTTP status 409, the displayed
error message is the string made of the marker `Duplicate file detected: `
followed by the server detail, with the fixed fallback text when no detail is
supplied. -/
theorem C7_duplicate_409_message (st : FormState) (fd : FormData) (errName : String)
    (detail : Option String) (h : handleSubmit st = .upload fd)
    (hn : errName ≠ "AbortError") :
    (∃ rest, (runSubmit st (.failure errName (some 409) detail) false).errorMsg =
      "Duplicate file detected: " ++ rest) ∧
    (runSubmit st (.failure errName (some 409) detail) false).errorMsg =
      "Duplicate file detected: " ++
        detail.getD "A file with the same content already exists" ∧
    (detail = none →
      (runSubmit st (.failure errName (some 409) detail) false).errorMsg =
        "Duplicate file detected: A file with the same content already exists") := by
  have hmsg : (runSubmit st (.failure errName (some 409) detail) false).errorMsg =
      "Duplicate file detected: " ++
        detail.getD "A file with the same content already exists" := by
    simp [runSubmit, h, catchMessage, hn]
  refine ⟨⟨_, hmsg⟩, hmsg, fun hd => ?_⟩
  rw [hmsg, hd]
  rfl

/-- Witness for C7 at a concrete 409 rejection without server detail. -/
theorem C7_witness :
    (runSubmit tapeState (.failure "AxiosError" (some 409) none) false).errorMsg =
      "Duplicate file detected: A file with the same content already exists" :=
  (C7_duplicate_409_message tapeState (buildFormData sampleVideoFile tapeState)
    "AxiosError" none (by decide) (by decide)).2.2 rfl

/-- C8: when `uploadMedia` rejects with an `AbortError` (the cancel path fired
by `handleCancelUpload`), the displayed error is `Upload cancelled` and neither
`onUploadSuccess` nor `onClose` runs. -/
theorem C8_abort_reports_cancelled (st : FormState) (fd : FormData)
    (status : Option Nat) (detail : Option String) (c : Bool)
    (h : handleSubmit st = .upload fd) :
    (runSubmit st (.failure "AbortError" status detail) c).errorMsg = "Upload cancelled" ∧
    (runSubmit st (.failure "AbortError" status detail) c).successCalled = false ∧
    (runSubmit st (.failure "AbortError" status detail) c).closeCalled = false := by
  refine ⟨?_, ?_, ?_⟩ <;> simp [runSubmit, h, catchMessage]

/-- Witness for C8 at a concrete aborted upload. -/
theorem C8_witness :
    (runSubmit tapeState (.failure "AbortError" none none) true).errorMsg = "Upload cancelled" ∧
    (runSubmit tapeState (.failure "AbortError" none none) true).successCalled = false ∧
    (runSubmit tapeState (.failure "AbortError" none none) true).closeCalled = false :=
  C8_abort_reports_cancelled tapeState (buildFormData sampleVideoFile tapeState)
    none none true (by decide)

/-- C9: delivering a previously ingested asset round-trips the stored bytes
exactly; modelled from the spec since the backend pipeline is not under
`src/`. Every successful `ingest` commits a READY asset whose bytes `deliver`
returns byte-identical. -/
theorem C9_deliver_ingest_roundtrip (maxBytes : Nat) (store : Store)
    (inp : IngestInput) (ident : Nat) (store2 : Store)
    (h : ingest maxBytes store inp = .ok (ident, store2)) :
    deliver store2 ident = .ok inp.bytes := by
  unfold ingest at h
  cases hv : validatePolicy maxBytes inp with
  | error e =>
    rw [hv] at h
    exact absurd h (by simp)
  | ok tape =>
    rw [hv] at h
    dsimp only at h
    cases hfind : store.find? (fun a => !a.deleted && a.bytes == inp.bytes) with
    | some a =>
      rw [hfind] at h
      exact absurd h (by simp)
    | none =>
      rw [hfind] at h
      dsimp only at h
      split at h
      · exact absurd h (by simp)
      · rw [Except.ok.injEq, Prod.mk.injEq] at h
        obtain ⟨h1, h2⟩ := h
        subst h1
        subst h2
        unfold deliver
        simp [List.find?_cons]

/-- Witness for C9 at a concrete tape ingestion into the empty store. -/
theorem C9_witness :
    ingest 100 [] sampleIngest = .ok (1, sampleStore) ∧
    deliver sampleStore 1 = .ok sampleIngest.bytes :=
  ⟨rfl, C9_deliver_ingest_roundtrip 100 [] sampleIngest 1 sampleStore rfl⟩

/-- C10: `logout` always removes both tokens from local storage and clears the
user, whether or not the backend logout call rejects. -/
theorem C10_logout_clears_session {U : Type} (st : AuthState U) (apiRejects : Bool) :
    getItem (logout st apiRejects).storage "access_token" = none ∧
    getItem (logout st apiRejects).storage "refresh_token" = none ∧
    (logout st apiRejects).user = none := by
  have hlog : logout st apiRejects =
      { storage := removeItem (removeItem st.storage "access_token") "refresh_token",
        user := none } := by
    unfold logout
    cases h : getItem st.storage "refresh_token" <;> cases apiRejects <;> rfl
  rw [hlog]
  refine ⟨?_, ?_, rfl⟩
  · unfold getItem removeItem
    rw [Option.map_eq_none', List.find?_eq_none]
    intro x hx
    have hx1 := (List.mem_filter.mp hx).1
    have hq1 := (List.mem_filter.mp hx1).2
    simpa using hq1
  · unfold getItem removeItem
    rw [Option.map_eq_none', List.find?_eq_none]
    intro x hx
    have hq2 := (List.mem_filter.mp hx).2
    simpa using hq2

end VideoMgmt
